import Mathlib

/-!
Verification of the JSON content-generation scripts of the
Under-Delta-Tale-Rune-Fight-Sim repository.

The repository consists of five one-shot Python scripts
(src/scripts/generate_bosses_old.py, generate_enemies.py,
generate_missing_undertale_enemies.py, generate_deltarune_bosses.py,
generate_deltarune_enemies.py).  Each holds a hardcoded table of entity
records and writes one JSON file per record.

We shallowly embed the scripts here:
 * Python dict / list / str / int / float values become the `Json` type
   (Python floats in this data are exact decimals such as 2.5, embedded as
   rationals; no arithmetic is performed on them).
 * A script run becomes a list of filesystem operations (`FsOp`): directory
   creations (os.makedirs(..., exist_ok=True)) and file writes
   (open(f, "w") + json.dump).  A written file's content is modelled by the
   Json value handed to json.dump: for the values arising here json.dump is
   injective and json.load(json.dump(x)) = x, so "the JSON decoded from the
   file" is exactly that value.
 * Dictionary iteration follows Python 3.7+ insertion order, so a dict
   becomes an association list in source order (keys are distinct).
 * f-string interpolation of an int becomes toString of the Int, and
   str.lower / str.upper / single-character str.replace become the
   character-wise maps below (equivalent on this ASCII data).
-/

/-- A JSON-like Python value: strings, ints, floats (exact decimal rationals
here), lists, and insertion-ordered dicts with string keys. -/
inductive Json where
  | str : String → Json
  | int : Int → Json
  | float : ℚ → Json
  | arr : List Json → Json
  | obj : List (String × Json) → Json

/-- Python dict lookup `j[k]` (as an Option); `none` on non-dicts. -/
def Json.lookup (j : Json) (k : String) : Option Json :=
  match j with
  | .obj fields => fields.lookup k
  | _ => none

/-- The key list of a dict, in insertion order; `[]` on non-dicts. -/
def Json.keys : Json → List String
  | .obj fields => fields.map Prod.fst
  | _ => []

/-- Extract a string value. -/
def Json.asStr : Json → Option String
  | .str s => some s
  | _ => none

/-- Extract an int value. -/
def Json.asInt : Json → Option Int
  | .int n => some n
  | _ => none

/-- A filesystem effect performed by a script: `os.makedirs(d, exist_ok=True)`
or a JSON dump of content `j` to path `p`. -/
inductive FsOp where
  | mkdirAll : String → FsOp
  | write : String → Json → FsOp

/-- Whether an operation is a directory creation. -/
def FsOp.isMkdir : FsOp → Bool
  | .mkdirAll _ => true
  | .write _ _ => false

/-- The (path, content) pairs written by a trace, in order. -/
def writesOf (t : List FsOp) : List (String × Json) :=
  t.filterMap fun op =>
    match op with
    | .write p j => some (p, j)
    | .mkdirAll _ => none

/-- The file paths written by a trace, in order. -/
def pathsOf (t : List FsOp) : List String :=
  (writesOf t).map Prod.fst

/-- The content written to path `p` by a trace (first write wins; every
script writes each path at most once). -/
def findWrite (t : List FsOp) (p : String) : Option Json :=
  (writesOf t).lookup p

/-- Whether a path list has pairwise-distinct entries. -/
def nodupPaths (t : List FsOp) : Bool :=
  decide (pathsOf t).Nodup

/-- `os.path.dirname`: everything before the last slash ("" if no slash). -/
def dirname (p : String) : String :=
  String.mk (((p.data.reverse.dropWhile fun c => c != Char.ofNat 47).drop 1).reverse)

/-- Checks that every write in the trace is preceded by a creation of the
directory the file lands in (`made` accumulates directories created so far;
os.makedirs creates all parents, and every write here lands directly in a
created directory, so tracking the created directory itself suffices). -/
def dirsMadeBefore (made : List String) : List FsOp → Bool
  | [] => true
  | FsOp.mkdirAll d :: rest => dirsMadeBefore (d :: made) rest
  | FsOp.write p _ :: rest => made.contains (dirname p) && dirsMadeBefore made rest

/-- Files-only filesystem state: path ↦ content.  Directory creation does not
change any file, and a write replaces the file at its path. -/
def applyOp (fs : String → Option Json) : FsOp → String → Option Json
  | FsOp.mkdirAll _ => fs
  | FsOp.write p j => fun q => if q = p then some j else fs q

/-- Run a trace against a filesystem state. -/
def applyTrace (t : List FsOp) (fs : String → Option Json) : String → Option Json :=
  t.foldl applyOp fs

/-- The content of the last write to `p` in the trace, if any. -/
def lastVal : List FsOp → String → Option Json
  | [], _ => none
  | FsOp.mkdirAll _ :: rest, p => lastVal rest p
  | FsOp.write q j :: rest, p =>
    match lastVal rest p with
    | some r => some r
    | none => if p = q then some j else none

/-- Python str.lower on ASCII data (character-wise). -/
def pyLower (s : String) : String :=
  String.mk (s.data.map Char.toLower)

/-- Python str.upper on ASCII data (character-wise). -/
def pyUpper (s : String) : String :=
  String.mk (s.data.map Char.toUpper)

/-- Modelled from the spec: the family of file-name normalization rules the
spec allows — "the display name lowercased with spaces, apostrophes, and
hyphens removed or replaced", where `sp`, `ap`, `hy` are the replacement
strings chosen for space, apostrophe, and hyphen respectively (the empty
string meaning removal).  Each remaining character survives as itself. -/
def normGen (sp ap hy : String) (s : String) : String :=
  String.mk (((pyLower s).data.map fun c =>
    if c = Char.ofNat 32 then sp.data
    else if c = Char.ofNat 39 then ap.data
    else if c = Char.ofNat 45 then hy.data
    else [c]).flatten)

/-- The Deltarune boss script's name normalization:
`name.lower().replace(' ', '_').replace("'", '').replace('-', '_')`
(chained single-character replacements, equal to this simultaneous map). -/
def clean_boss_name (s : String) : String :=
  String.mk (((pyLower s).data.map fun c =>
    if c = Char.ofNat 32 then [Char.ofNat 95]
    else if c = Char.ofNat 39 then []
    else if c = Char.ofNat 45 then [Char.ofNat 95]
    else [c]).flatten)

/-- The Deltarune enemy script's name normalization:
`name.lower().replace(' ', '_').replace('-', '_')`. -/
def clean_enemy_name (s : String) : String :=
  String.mk ((pyLower s).data.map fun c =>
    if c = Char.ofNat 32 then Char.ofNat 95
    else if c = Char.ofNat 45 then Char.ofNat 95
    else c)

/-- An act record `{"name": ..., "effect": ...}`. -/
def jact (name effect : String) : Json :=
  Json.obj [("name", Json.str name), ("effect", Json.str effect)]

/-- An act record `{"name": ..., "effect": ..., "text": ..., "mercyIncrease": ...}`. -/
def jactm (name effect text : String) (mercy : Int) : Json :=
  Json.obj [("name", Json.str name), ("effect", Json.str effect),
    ("text", Json.str text), ("mercyIncrease", Json.int mercy)]

/-- A wave `{"time", "type", "count", "speed", "size", "side"}`. -/
def wcss (time : Int) (ty : String) (count : Int) (speed : Json) (size : Int) (side : String) : Json :=
  Json.obj [("time", Json.int time), ("type", Json.str ty), ("count", Json.int count),
    ("speed", speed), ("size", Json.int size), ("side", Json.str side)]

/-- A wave `{"time", "type", "count", "speed", "orientation"}`. -/
def wcso (time : Int) (ty : String) (count : Int) (speed : Json) (orient : String) : Json :=
  Json.obj [("time", Json.int time), ("type", Json.str ty), ("count", Json.int count),
    ("speed", speed), ("orientation", Json.str orient)]

/-- A wave `{"time", "type", "count", "speed"}`. -/
def wcs (time : Int) (ty : String) (count : Int) (speed : Json) : Json :=
  Json.obj [("time", Json.int time), ("type", Json.str ty), ("count", Json.int count),
    ("speed", speed)]

/-- A wave `{"time", "type", "count", "speed", "side"}`. -/
def wcsSide (time : Int) (ty : String) (count : Int) (speed : Json) (side : String) : Json :=
  Json.obj [("time", Json.int time), ("type", Json.str ty), ("count", Json.int count),
    ("speed", speed), ("side", Json.str side)]

/-- A wave `{"time", "type", "count", "speed", "pattern"}`. -/
def wcsPat (time : Int) (ty : String) (count : Int) (speed : Json) (pattern : String) : Json :=
  Json.obj [("time", Json.int time), ("type", Json.str ty), ("count", Json.int count),
    ("speed", speed), ("pattern", Json.str pattern)]

/-- A wave `{"time", "type": "circle", "startRadius", "endRadius", "duration"}`. -/
def wcircle (time : Int) (startRadius endRadius dur : Int) : Json :=
  Json.obj [("time", Json.int time), ("type", Json.str "circle"),
    ("startRadius", Json.int startRadius), ("endRadius", Json.int endRadius),
    ("duration", Json.int dur)]

/-- A wave `{"time", "type", "speed", "orientation"}`. -/
def wso (time : Int) (ty : String) (speed : Json) (orient : String) : Json :=
  Json.obj [("time", Json.int time), ("type", Json.str ty), ("speed", speed),
    ("orientation", Json.str orient)]

/-- A wave `{"time", "type", "speed", "color"}`. -/
def wsc (time : Int) (ty : String) (speed : Json) (color : String) : Json :=
  Json.obj [("time", Json.int time), ("type", Json.str ty), ("speed", speed),
    ("color", Json.str color)]

/-- A wave `{"time", "type", "speed", "trigger"}`. -/
def wst (time : Int) (ty : String) (speed : Json) (trigger : String) : Json :=
  Json.obj [("time", Json.int time), ("type", Json.str ty), ("speed", speed),
    ("trigger", Json.str trigger)]

/-- A pattern `{"name", "duration", "waves"}`. -/
def jpat (name : String) (dur : Int) (waves : List Json) : Json :=
  Json.obj [("name", Json.str name), ("duration", Json.int dur), ("waves", Json.arr waves)]

/-- An Undertale entity record without attackPatterns, with the key order
used by generate_enemies.py / generate_bosses_old.py /
generate_missing_undertale_enemies.py. -/
def jrec (name : String) (hp atk defense gold exp spare : Int) (dialogue : List String)
    (checkTxt : String) (idle : List String) (acts : List Json) : Json :=
  Json.obj [("name", Json.str name), ("hp", Json.int hp), ("attack", Json.int atk),
    ("defense", Json.int defense), ("gold", Json.int gold), ("exp", Json.int exp),
    ("spareThreshold", Json.int spare),
    ("dialogue", Json.arr (dialogue.map Json.str)), ("checkText", Json.str checkTxt),
    ("sprites", Json.obj [("idle", Json.arr (idle.map Json.str))]),
    ("acts", Json.arr acts)]

/-- An Undertale entity record with attackPatterns as the final key. -/
def jrecP (name : String) (hp atk defense gold exp spare : Int) (dialogue : List String)
    (checkTxt : String) (idle : List String) (acts : List Json) (patterns : List Json) : Json :=
  Json.obj [("name", Json.str name), ("hp", Json.int hp), ("attack", Json.int atk),
    ("defense", Json.int defense), ("gold", Json.int gold), ("exp", Json.int exp),
    ("spareThreshold", Json.int spare),
    ("dialogue", Json.arr (dialogue.map Json.str)), ("checkText", Json.str checkTxt),
    ("sprites", Json.obj [("idle", Json.arr (idle.map Json.str))]),
    ("acts", Json.arr acts), ("attackPatterns", Json.arr patterns)]

/-- A Deltarune boss table record, key order of generate_deltarune_bosses.py. -/
def jdrboss (name chapter folder : String) (hp atk defense : Int) (dialogue : List String)
    (checkTxt : String) (acts : List Json) (patterns : List Json) : Json :=
  Json.obj [("name", Json.str name), ("chapter", Json.str chapter),
    ("folder", Json.str folder), ("hp", Json.int hp), ("attack", Json.int atk),
    ("defense", Json.int defense),
    ("dialogue", Json.arr (dialogue.map Json.str)), ("checkText", Json.str checkTxt),
    ("acts", Json.arr acts), ("attackPatterns", Json.arr patterns)]

/-- A Deltarune enemy table record, key order of generate_deltarune_enemies.py. -/
def jdrenemy (name : String) (hp atk defense : Int) (folder : String)
    (dialogue : List String) (acts : List Json) : Json :=
  Json.obj [("name", Json.str name), ("hp", Json.int hp), ("attack", Json.int atk),
    ("defense", Json.int defense), ("folder", Json.str folder),
    ("dialogue", Json.arr (dialogue.map Json.str)), ("acts", Json.arr acts)]

namespace GenBossesOld

/-- generate_bosses_old.py line 10. -/
def OUTPUT_DIR : String := "/workspaces/Under-Delta-Tale-Rune-Fight-Sim/data/enemies/bosses"

/-- generate_bosses_old.py lines 13-306: the BOSSES dict, in source order. -/
def BOSSES : List (String × Json) := [
  ("toriel", jrecP "Toriel" 440 6 1 0 0 0
    ["* Toriel prepares a magical attack.",
     "* Toriel is acting aloof.",
     "* Toriel is looking through you.",
     "* Smells like butterscotch pie."]
    "ATK 6 DEF 1\n* Knows best for you."
    ["Battle/Characters/Toriel/spr_toriel_talk_0.png"]
    [jact "Check" "check",
     jactm "Talk" "talk" "* You talk to Toriel.\n* She doesn\x27t want to listen." 10,
     jactm "Spare" "spare" "* You spared Toriel." 5]
    [jpat "Fire Magic" 5000
      [wcss 0 "projectiles" 8 (Json.int 2) 20 "top",
       wcss 1000 "projectiles" 8 (Json.int 2) 20 "bottom",
       wcss 2000 "projectiles" 8 (Json.int 2) 20 "left",
       wcss 3000 "projectiles" 8 (Json.int 2) 20 "right"]]),
  ("papyrus", jrecP "Papyrus" 680 8 2 0 0 0
    ["* Papyrus is preparing a\n  non-bone attack.",
     "* Papyrus is rattling his bones.",
     "* Papyrus is cooking.",
     "* Smells like bones."]
    "ATK 8 DEF 2\n* Likes to say \x27Nyeh Heh Heh!\x27"
    ["Battle/Characters/Papyrus/spr_papyrus_0.png"]
    [jact "Check" "check",
     jactm "Compliment" "compliment" "* You tell Papyrus he\x27s cool.\n* NYEH HEH HEH!!!" 20,
     jactm "Flirt" "flirt" "* You flirt with Papyrus.\n* His attack dropped!" 30]
    [jpat "Bone Attack" 4500
      [wcso 0 "bones" 3 (Json.int 3) "horizontal",
       wcso 1000 "bones" 3 (Json.int 3) "vertical",
       wcso 2000 "bones" 4 (Json.float 3.5) "horizontal",
       wcso 3000 "bones" 4 (Json.float 3.5) "vertical"]]),
  ("undyne", jrecP "Undyne" 1500 10 0 0 0 0
    ["* Undyne attacks!",
     "* Undyne is smiling.",
     "* Undyne points heroically\n  at you.",
     "* Smells like anime."]
    "ATK 10 DEF 0\n* The heroine that NEVER gives up."
    ["Battle/Characters/Undyne/spr_undynebattle_0.png"]
    [jact "Check" "check",
     jactm "Challenge" "challenge" "* You tell Undyne you\x27ll fight her." 0,
     jactm "Plead" "plead" "* You plead with Undyne." 10]
    [jpat "Spear Rain" 5000
      [wcss 0 "projectiles" 10 (Json.int 3) 15 "top",
       wcss 1500 "projectiles" 10 (Json.int 3) 15 "top",
       wcss 3000 "projectiles" 12 (Json.float 3.5) 15 "top"]]),
  ("mettaton", jrecP "Mettaton EX" 1000 10 255 0 0 0
    ["* Mettaton poses dramatically!",
     "* Mettaton is checking his\n  ratings.",
     "* Mettaton adjusts his hair.",
     "* Smells like a television studio."]
    "ATK 10 DEF 255\n* Lights! Camera! Action!"
    ["Battle/Characters/Mettaton EX/spr_mettatonbattle_pose_0.png"]
    [jact "Check" "check",
     jactm "Pose" "pose" "* You strike a pose!\n* The ratings went up!" 20,
     jactm "Boast" "boast" "* You boast about your abilities!\n* The ratings went up!" 20,
     jactm "Yellow" "yellow" "* You turn the switch to yellow!" 100]
    [jpat "Leg Attack" 5000
      [wcss 0 "projectiles" 8 (Json.int 3) 20 "left",
       wcss 2000 "projectiles" 8 (Json.int 3) 20 "right"]]),
  ("asgore", jrecP "Asgore" 3500 10 1 0 0 0
    ["* Asgore prepares a magic attack.",
     "* Asgore is filled with regret.",
     "* Asgore gazes at you.",
     "* Smells like golden flowers."]
    "ATK 10 DEF 1\n* The king of the monsters."
    ["Battle/Characters/Asgore/Head/spr_asgore_head_0.png"]
    [jact "Check" "check",
     jactm "Talk" "talk" "* You talk to Asgore.\n* He looks away." 0,
     jactm "Mercy" "mercy" "* You beg for mercy." 0]
    [jpat "Trident Swipe" 6000
      [wcss 0 "projectiles" 12 (Json.int 3) 25 "top",
       wcss 2000 "projectiles" 12 (Json.int 3) 25 "bottom",
       wcss 4000 "projectiles" 15 (Json.float 3.5) 25 "top"]]),
  ("sans", jrecP "Sans" 1 1 1 0 0 0
    ["* sans is judging your sins.",
     "* sans is winking.",
     "* ...  ",
     "* Smells like  bad times."]
    "ATK 1 DEF 1\n* The easiest enemy.\n* Can only deal 1 damage."
    ["Battle/Characters/Sans/spr_sansbattle_0.png"]
    [jact "Check" "check",
     jactm "Spare" "spare" "* Sans spares you..." 0]
    [jpat "Gaster Blaster" 5000
      [wcso 0 "bones" 5 (Json.int 4) "horizontal",
       wcso 1000 "bones" 5 (Json.int 4) "vertical",
       wcso 2000 "bones" 6 (Json.int 5) "horizontal",
       wcso 3000 "bones" 6 (Json.int 5) "vertical"]]),
  ("flowey", jrecP "Flowey" 1000 8 10 0 0 0
    ["* Flowey laughs maniacally.",
     "* Flowey is thinking about\n  killing everyone.",
     "* Flowey winks at you.",
     "* Smells like flowers."]
    "ATK 8 DEF 10\n* Truly evil."
    ["Battle/Characters/Flowey/General/spr_floweyboss_scared.png"]
    [jact "Check" "check",
     jactm "Struggle" "struggle" "* You struggle..." 0]
    [jpat "Friendliness Pellets" 4500
      [wcircle 0 10 100 80,
       wcircle 1500 10 100 80,
       wcircle 3000 10 100 80]]),
  ("asriel", jrecP "Asriel Dreemurr" 9999 10 9999 0 0 0
    ["* Asriel prepares to use his\n  full power.",
     "* Asriel is smiling.",
     "* Asriel readies CHAOS SABER.",
     "* Smells like... hopes and dreams."]
    "ATK ∞ DEF ∞\n* The absolute GOD of Hyperdeath!"
    ["Battle/Characters/Asriel Dreemurr/God of Hyperdeath/spr_godhyperdeath_form_0.png"]
    [jact "Check" "check",
     jactm "Dream" "dream" "* You think of your dreams." 10,
     jactm "Hope" "hope" "* You think of hope." 10,
     jactm "Save" "save" "* You saved Asriel." 50]
    [jpat "Chaos Saber" 6000
      [wcss 0 "projectiles" 15 (Json.int 4) 30 "top",
       wcss 1500 "projectiles" 15 (Json.int 4) 30 "bottom",
       wcss 3000 "projectiles" 15 (Json.int 4) 30 "left",
       wcss 4500 "projectiles" 15 (Json.int 4) 30 "right"]])]

/-- generate_bosses_old.py lines 308-313: `create_boss_json` dumps the boss
record verbatim to OUTPUT_DIR/boss_id.json. -/
def create_boss_json (boss_id : String) (boss_data : Json) : String × Json :=
  (OUTPUT_DIR ++ "/" ++ boss_id ++ ".json", boss_data)

/-- A full run: os.makedirs(OUTPUT_DIR, exist_ok=True) at import time
(line 11), then one write per BOSSES entry in table order (lines 315-322). -/
def run : List FsOp :=
  FsOp.mkdirAll OUTPUT_DIR ::
    BOSSES.map fun p => FsOp.write (create_boss_json p.1 p.2).1 (create_boss_json p.1 p.2).2

end GenBossesOld

namespace GenEnemies

/-- generate_enemies.py line 11. -/
def OUTPUT_DIR : String := "/workspaces/Under-Delta-Tale-Rune-Fight-Sim/data/enemies"

/-- generate_enemies.py lines 14-650: the ENEMIES dict, in source order.
No record carries an "attackPatterns" key. -/
def ENEMIES : List (String × Json) := [
  ("froggit", jrec "Froggit" 30 5 0 2 3 0
    ["* Froggit hops closer.",
     "* Froggit makes a frog noise.",
     "* The battlefield is filled with\n  the smell of mustard seed.",
     "* Froggit doesn\x27t seem to know\n  why it\x27s here."]
    "ATK 4 DEF 1\n* Life is difficult for this enemy."
    ["Battle/Enemies/01 - Ruins/Froggit/spr_froggit_0.png",
     "Battle/Enemies/01 - Ruins/Froggit/spr_froggit_1.png",
     "Battle/Enemies/01 - Ruins/Froggit/spr_froggit_2.png",
     "Battle/Enemies/01 - Ruins/Froggit/spr_froggit_3.png"]
    [jact "Check" "check",
     jactm "Compliment" "compliment" "* You compliment Froggit.\n* It doesn\x27t seem to understand..." 30,
     jactm "Threaten" "threaten" "* You threaten Froggit.\n* It starts to hop away." 10]),
  ("whimsun", jrec "Whimsun" 10 5 0 2 2 0
    ["* Whimsun approached meekly!",
     "* Whimsun continues to mutter\n  apologies.",
     "* Whimsun is hyperventilating.",
     "* Whimsun is thinking about\n  its friend."]
    "ATK 5 DEF 0\n* This monster is too sensitive\n  to fight..."
    ["Battle/Enemies/01 - Ruins/Whimsun/spr_whimsun_0.png"]
    [jact "Check" "check",
     jactm "Console" "console" "* You console Whimsun.\n* Its eyes glimmer with tears..." 100,
     jactm "Terrorize" "terrorize" "* You wiggle your arms at Whimsun.\n* Whimsun freaks out!" 100]),
  ("moldsmal", jrec "Moldsmal" 50 6 0 3 3 0
    ["* Moldsmal wavers around.",
     "* Moldsmal burbles quietly.",
     "* Moldsmal is pondering something.",
     "* Smells like sweet lemons."]
    "ATK 6 DEF 0\n* Stereotypical: Curvaceously\n  attractive, but no brains..."
    ["Battle/Enemies/01 - Ruins/Moldsmal/spr_moldsmal_0.png",
     "Battle/Enemies/01 - Ruins/Moldsmal/spr_moldsmal_1.png"]
    [jact "Check" "check",
     jactm "Imitate" "imitate" "* You lie on the ground and wiggle.\n* Moldsmal is flattered." 30,
     jactm "Flirt" "flirt" "* You wiggle your hips.\n* Moldsmal wiggles back." 50]),
  ("loox", jrec "Loox" 50 6 6 5 5 0
    ["* Loox draws near!",
     "* Loox stares at you.",
     "* Loox is suspicious of you.",
     "* Loox gnashes its teeth."]
    "ATK 6 DEF 6\n* Don\x27t pick on.\n* Family name: Eyewalker."
    ["Battle/Enemies/01 - Ruins/Loox/spr_loox_0.png"]
    [jact "Check" "check",
     jactm "Pick On" "pickon" "* You pick on Loox.\n* Its defense dropped!" 30,
     jactm "Don\x27t Pick On" "dontpickon" "* You don\x27t pick on Loox.\n* Loox appreciates your restraint." 50]),
  ("vegetoid", jrec "Vegetoid" 72 6 2 4 5 0
    ["* Vegetoid came out of the earth!",
     "* Vegetoid settles down.",
     "* Vegetoid offers you a healthy meal.",
     "* Smells like apple juice."]
    "ATK 6 DEF 2\n* Serving Size: 1 Monster.\n  Not monitored by the USDA."
    ["Battle/Enemies/01 - Ruins/Vegetoid/spr_vegetoid_0.png"]
    [jact "Check" "check",
     jactm "Dinner" "dinner" "* You ask Vegetoid for dinner.\n* It offers you a healthy meal!" 50,
     jactm "Devour" "devour" "* You eat Vegetoid\x27s vegetables.\n* Your HP was maxed out!" 100]),
  ("migosp", jrec "Migosp" 40 7 0 3 5 0
    ["* Migosp comes near!",
     "* Migosp is thinking about\n  its friends.",
     "* Migosp dances around.",
     "* Smells like a combination of  \n  plums, clams, and bleach."]
    "ATK 7 DEF 0\n* Seems evil, but it\x27s just\n  with the wrong crowd..."
    ["Battle/Enemies/01 - Ruins/Migosp/spr_migosp_0.png"]
    [jact "Check" "check",
     jactm "Talk" "talk" "* You talk to Migosp.\n* Seems comfortable here." 0]),
  ("napstablook", jrec "Napstablook" 88 10 255 0 0 0
    ["* napstablook...",
     "* i\x27m sorry...",
     "* i\x27m just really...\n  ...tired...",
     "* oh no..."]
    "ATK 10 DEF -40\n* This monster is really feeling\n  \x27it\x27... whatever \x27it\x27 is."
    ["Battle/Enemies/01 - Ruins/Napstablook/spr_napstabattle_0.png",
     "Battle/Enemies/01 - Ruins/Napstablook/spr_napstabattle_1.png"]
    [jact "Check" "check",
     jactm "Cheer" "cheer" "* You console Napstablook.\n* Its ATTACK dropped!" 20,
     jactm "Flirt" "flirt" "* You flirt with Napstablook.\n  uh... no thanks..." 10]),
  ("dummy", jrec "Dummy" 15 0 0 0 0 0
    ["* The dummy stands there motionless.",
     "* Cotton is spilling out of the dummy.",
     "* The dummy is giving you a blank stare."]
    "ATK 0 DEF 0\n* A cotton heart and a button eye.\n  You are the apple of its eye."
    ["Battle/Enemies/01 - Ruins/Dummy/spr_dummyfight_glad_0.png"]
    [jact "Check" "check",
     jactm "Talk" "talk" "* You talk to the dummy.\n* It seems happy." 100,
     jactm "Hug" "hug" "* You hug the dummy.\n* It\x27s soft and fluffy..." 100]),
  ("snowdrake", jrec "Snowdrake" 74 7 0 6 6 0
    ["* Snowdrake comes flying in!",
     "* Snowdrake is checking you out.",
     "* Snowdrake has frozen over.",
     "* Smells like... snow."]
    "ATK 7 DEF 0\n* This teen comedian fights to\n  keep a captive audience."
    ["Battle/Enemies/02 - Snowdin/Snowdrake/spr_icecap_0.png"]
    [jact "Check" "check",
     jactm "Joke" "joke" "* You make a joke.\n* Snowdrake laughs!" 30,
     jactm "Heckle" "heckle" "* You heckle Snowdrake.\n* Its confidence wavers..." 30]),
  ("icecap", jrec "Ice Cap" 48 6 3 5 4 0
    ["* Ice Cap appears!",
     "* Ice Cap is thinking about\n  its hat.",
     "* Ice Cap is freezing.",
     "* Smells like icicles."]
    "ATK 6 DEF 3\n* This teen wonders why it isn\x27t\n  named \x27Ice Hat\x27."
    ["Battle/Enemies/02 - Snowdin/Icecap/spr_icecap_0.png"]
    [jact "Check" "check",
     jactm "Steal Hat" "steal" "* You stole Ice Cap\x27s hat.\n* Ice Cap is bare!" 100,
     jactm "Ignore" "ignore" "* You ignore Ice Cap." 10]),
  ("gyftrot", jrec "Gyftrot" 108 7 3 15 8 0
    ["* Gyftrot appears!",
     "* Gyftrot is sighing.",
     "* Gyftrot is annoyed.",
     "* Smells like pine trees."]
    "ATK 7 DEF 3\n* Wonders why people are so\n  horrible to each other."
    ["Battle/Enemies/02 - Snowdin/Gyftrot/spr_gyftrot_0.png"]
    [jact "Check" "check",
     jactm "Undecorate" "undecorate" "* You remove the decorations.\n* Gyftrot feels much better!" 50,
     jactm "Decorate" "decorate" "* You add more decorations.\n* Gyftrot sighs even louder..." 0]),
  ("jerry", jrec "Jerry" 100 7 1 1 1 0
    ["* Jerry clings to you!",
     "* Jerry eats powdery food\n  and licks its hands proudly.",
     "* Jerry ditches its friend to\n  talk to you.",
     "* Smells like... Jerry."]
    "ATK 7 DEF 1\n* Everybody knows Jerry.\n* Attack when it\x27s not looking."
    ["Battle/Enemies/02 - Snowdin/Jerry/spr_jerry_0.png"]
    [jact "Check" "check",
     jactm "Ditch" "ditch" "* You ditch Jerry.\n* Everyone is relieved!" 100]),
  ("aaron", jrec "Aaron" 98 8 0 10 7 0
    ["* Aaron appears!",
     "* Aaron is flexing.",
     "* Aaron is admiring himself.",
     "* Smells like musk."]
    "ATK 8 DEF 0\n* This seahorse has a lot of\n  HP. Don\x27t just hack away..."
    ["Battle/Enemies/03 - Waterfall/Aaron/spr_aaron_0.png"]
    [jact "Check" "check",
     jactm "Flex" "flex" "* You flex your muscles.\n* Aaron is impressed!" 40,
     jactm "Flirt" "flirt" "* You flirt with Aaron.\n  Aaron\x27s face gets redder..." 40]),
  ("woshua", jrec "Woshua" 70 7 1 8 5 0
    ["* Woshua appears!",
     "* Woshua is judging your\n  cleanliness.",
     "* Woshua is scrubbing furiously.",
     "* Smells like disinfectant."]
    "ATK 7 DEF 1\n* This humble germaphobe seeks\n  to cleanse the whole world."
    ["Battle/Enemies/03 - Waterfall/Woshua/spr_woshua_0.png"]
    [jact "Check" "check",
     jactm "Clean" "clean" "* You let Woshua clean you.\n* Woshua is satisfied!" 100,
     jactm "Joke" "joke" "* You make a dirty joke.\n* Woshua is disgusted!" 0]),
  ("moldbygg", jrec "Moldbygg" 80 8 0 10 8 0
    ["* Moldbygg wavers forward.",
     "* Moldbygg is oozing.",
     "* Moldbygg burbles.",
     "* Smells like vanilla."]
    "ATK 8 DEF 0\n* Huge, hulking, unscary.\n* Looking for love."
    ["Battle/Enemies/03 - Waterfall/Moldbygg/spr_moldbygg_0.png"]
    [jact "Check" "check",
     jactm "Lie Down" "lie" "* You lie on the ground.\n* Moldbygg lies on top of you!" 50,
     jactm "Unhug" "unhug" "* You push Moldbygg off.\n* Moldbygg gets the hint." 50]),
  ("shyren", jrec "Shyren" 66 7 0 9 4 0
    ["* Shyren hums a melody.",
     "* Shyren trebles with fear.",
     "* Shyren is humming.",
     "* Smells like music."]
    "ATK 7 DEF 0\n* A talented musician\n  but she\x27s too shy to sing."
    ["Battle/Enemies/03 - Waterfall/Shyren/spr_shyren_0.png"]
    [jact "Check" "check",
     jactm "Hum" "hum" "* You hum along with Shyren.\n* Shyren grows confident!" 30,
     jactm "Sing" "sing" "* You sing to Shyren.\n* Shyren is happy!" 50]),
  ("vulkin", jrec "Vulkin" 66 9 0 10 6 0
    ["* Vulkin erupts!",
     "* Vulkin is warming up.",
     "* Vulkin wants to be popular.",
     "* Smells like hot springs."]
    "ATK 9 DEF 0\n* Hotheaded. Tries to calm\n  people down with hugs."
    ["Battle/Enemies/04 - Hotland/Vulkin/spr_vulkin_0.png"]
    [jact "Check" "check",
     jactm "Encourage" "encourage" "* You encourage Vulkin.\n* Vulkin is pumped up!" 30,
     jactm "Hug" "hug" "* You hug Vulkin.\n* Vulkin is cooled down!" 50]),
  ("tsunderplane", jrec "Tsunderplane" 95 9 4 10 7 0
    ["* Tsunderplane flies in!",
     "* Tsunderplane is tsun-tsun.",
     "* Tsunderplane is wavering.",
     "* Smells like airplane food."]
    "ATK 9 DEF 4\n* Seems mean, but does it secretly\n  like you?"
    ["Battle/Enemies/04 - Hotland/Tsunderplane/spr_tsunderplane_0.png"]
    [jact "Check" "check",
     jactm "Approach" "approach" "* You approach Tsunderplane.\n* I-it\x27s not like I like you!" 30,
     jactm "Compliment" "compliment" "* You compliment Tsunderplane.\n* B-baka...!" 50]),
  ("pyrope", jrec "Pyrope" 110 10 0 12 10 0
    ["* Pyrope bursts in!",
     "* Pyrope is jumping around.",
     "* Pyrope is heating up.",
     "* Smells like fireworks."]
    "ATK 10 DEF 0\n* This hotheaded youngster\n  is itching for a fight."
    ["Battle/Enemies/04 - Hotland/Pyrope/spr_pyrope_0.png"]
    [jact "Check" "check",
     jactm "Heat Up" "heat" "* You encourage Pyrope.\n* Pyrope burns brighter!" 30,
     jactm "Cool Down" "cool" "* You cool Pyrope down.\n* Pyrope feels better!" 50]),
  ("muffet", jrec "Muffet" 1250 10 0 350 100 0
    ["* Muffet traps you!",
     "* Muffet giggles.",
     "* Muffet is checking her\n  account balance.",
     "* Smells like cobwebs and donuts."]
    "ATK 10 DEF 0\n* If she invites you to her\n  parlor, excuse yourself."
    ["Battle/Characters/Muffet/spr_muffet_0.png"]
    [jact "Check" "check",
     jactm "Pay" "pay" "* You pay Muffet.\n* Muffet lets you go!" 100,
     jactm "Struggle" "struggle" "* You struggle in the web." 10]),
  ("final_froggit", jrec "Final Froggit" 100 10 5 15 10 0
    ["* Final Froggit hops in!",
     "* Final Froggit is pondering\n  the universe.",
     "* Final Froggit ribbits wisely.",
     "* Smells like ancient wisdom."]
    "ATK 10 DEF 5\n* This frog has lived a long time\n  and has sage advice."
    ["Battle/Enemies/05 - Core/Final Froggit/spr_finalfroggit_0.png"]
    [jact "Check" "check",
     jactm "Compliment" "compliment" "* You compliment Final Froggit.\n* It nods knowingly." 40,
     jactm "Mystify" "mystify" "* You tell Final Froggit something\n  mystical. It\x27s satisfied." 100]),
  ("whimsalot", jrec "Whimsalot" 95 10 2 12 8 0
    ["* Whimsalot swoops in!",
     "* Whimsalot is confident.",
     "* Whimsalot is flying strong.",
     "* Smells like confidence."]
    "ATK 10 DEF 2\n* Upgraded. Optimistic.\n  Still scared of you."
    ["Battle/Enemies/05 - Core/Whimsalot/spr_whimsalot_0.png"]
    [jact "Check" "check",
     jactm "Console" "console" "* You console Whimsalot.\n* Whimsalot calms down." 50,
     jactm "Terrorize" "terrorize" "* You terrorize Whimsalot.\n* Whimsalot flies away!" 100]),
  ("astigmatism", jrec "Astigmatism" 110 10 4 15 10 0
    ["* Astigmatism drew near!",
     "* Astigmatism is staring.",
     "* Astigmatism is judging you.",
     "* Smells like eye drops."]
    "ATK 10 DEF 4\n* Upgraded. Now has a more\n  sophisticated sense of fashion."
    ["Battle/Enemies/05 - Core/Astigmatism/spr_astigmatism_0.png"]
    [jact "Check" "check",
     jactm "Pick On" "pickon" "* You pick on Astigmatism." 30,
     jactm "Don\x27t Pick On" "dontpickon" "* You don\x27t pick on Astigmatism.\n* It respects you." 50]),
  ("knight_knight", jrec "Knight Knight" 230 10 8 30 15 0
    ["* Knight Knight blocks the way!",
     "* Knight Knight is guarding.",
     "* Knight Knight stands firm.",
     "* Smells like steel and roses."]
    "ATK 10 DEF 8\n* This heavy knight fears nothing.\n  Loves its pet cat more than life."
    ["Battle/Enemies/05 - Core/Knight Knight/spr_knightknight_0.png"]
    [jact "Check" "check",
     jactm "Sing" "sing" "* You sing a lullaby.\n* Knight Knight falls asleep!" 100]),
  ("madjick", jrec "Madjick" 190 10 5 25 12 0
    ["* Madjick casts a spell!",
     "* Madjick is concentrating.",
     "* Madjick is muttering\n  incantations.",
     "* Smells like magic dust."]
    "ATK 10 DEF 5\n* This magical mercenary wields\n  strange powers."
    ["Battle/Enemies/05 - Core/Madjick/spr_madjick_0.png"]
    [jact "Check" "check",
     jactm "Clear Mind" "clearmind" "* You clear your mind.\n* Madjick\x27s magic is disturbed!" 50])]

/-- generate_enemies.py lines 656-687: the default attack patterns injected
when a record has none. -/
def default_attack_patterns : Json :=
  Json.arr [jpat "Default Attack" 4000
    [wcss 0 "projectiles" 5 (Json.int 2) 15 "top",
     wcss 1500 "projectiles" 4 (Json.float 2.5) 15 "left",
     wcss 2500 "projectiles" 4 (Json.float 2.5) 15 "right"]]

/-- generate_enemies.py lines 654-687: the in-place mutation
`if "attackPatterns" not in enemy_data: enemy_data["attackPatterns"] = ...`
(a new dict key is appended at the end in insertion order). -/
def addDefaultPatterns (d : Json) : Json :=
  match d with
  | Json.obj fields =>
    if (fields.lookup "attackPatterns").isSome then Json.obj fields
    else Json.obj (fields ++ [("attackPatterns", default_attack_patterns)])
  | j => j

/-- generate_enemies.py lines 652-692: `create_enemy_json` mutates the
record as above and dumps it to OUTPUT_DIR/enemy_id.json.  The script never
calls os.makedirs. -/
def create_enemy_json (enemy_id : String) (enemy_data : Json) : String × Json :=
  (OUTPUT_DIR ++ "/" ++ enemy_id ++ ".json", addDefaultPatterns enemy_data)

/-- A full run (lines 694-701): one write per ENEMIES entry in table order;
no directory creation anywhere in the script. -/
def run : List FsOp :=
  ENEMIES.map fun p => FsOp.write (create_enemy_json p.1 p.2).1 (create_enemy_json p.1 p.2).2

end GenEnemies

namespace GenMissing

/-- generate_missing_undertale_enemies.py lines 11-412: the ENEMIES dict, in
source order.  checkText and act text strings in this file contain literal
backslash-n sequences (Python "\\n"), unlike the real newlines elsewhere. -/
def ENEMIES : List (String × Json) := [
  ("chilldrake", jrecP "Chilldrake" 44 7 0 12 6 100
    ["* Chilldrake saunters up!",
     "* Chilldrake is trying to be  \n  cool.",
     "* Chilldrake is thinking about  \n  its jokes.",
     "* Smells like popsicles."]
    "ATK 7 DEF 0\\n* Rebels against everything!!\\n  Looking for its friend Snowy."
    ["Battle/Enemies/02 - Snowdin/Ice Drake/spr_icedrakebattle_0.png"]
    [jact "Check" "check",
     jactm "Joke" "joke" "* You tell a joke.\\n* Chilldrake laughs!" 40,
     jactm "Ignore" "ignore" "* You ignore Chilldrake.\\n* It gets mad!" 0]
    [jpat "Ice Attack" 4500
      [wcss 0 "projectiles" 4 (Json.float 2.5) 15 "top",
       wcss 1500 "projectiles" 5 (Json.int 3) 15 "left",
       wcss 3000 "projectiles" 4 (Json.float 2.5) 15 "right"]]),
  ("doggo", jrecP "Doggo" 70 8 2 30 30 100
    ["* Doggo blocks the way!",
     "* Doggo is fast asleep.",
     "* Doggo is questioning your  \n  movements.",
     "* Smells like wet dog."]
    "ATK 8 DEF 2\\n* Easily excited by movement.\\n  Hopelessly near-sighted."
    ["Battle/Enemies/02 - Snowdin/Doggo/spr_doggo_0.png"]
    [jact "Check" "check",
     jactm "Pet" "pet" "* You pet Doggo.\\n* He\x27s so happy!" 100]
    [jpat "Blue Sword Sweep" 4000
      [wso 500 "blue_sweep" (Json.int 2) "horizontal"]]),
  ("dogamy_dogaressa", jrecP "Dogamy & Dogaressa" 108 8 4 60 60 100
    ["* This couple cannot be split up!",
     "* Dogamy and Dogaressa are  \n  thinking about dinner.",
     "* The dogs are practicing  \n  their marriage.",
     "* Smells like a sleepover."]
    "ATK 8 DEF 4\\n* Husband & wife team!\\n  Synchronicity is key."
    ["Battle/Enemies/02 - Snowdin/Dogamy + Dogaressa/spr_marriedbattle_0.png"]
    [jact "Check" "check",
     jactm "Roll Around" "roll" "* You roll around.\\n* The dogs are amused!" 30,
     jactm "Pet" "pet" "* You pet the dogs.\\n* They wag their tails!" 70]
    [jpat "Double Axes" 5000
      [wcsPat 0 "axes" 2 (Json.int 3) "heart",
       wcsPat 2000 "heart_bullets" 8 (Json.float 2.5) "ring",
       wcsPat 3500 "axes" 2 (Json.float 3.5) "heart"]]),
  ("lesser_dog", jrecP "Lesser Dog" 60 8 0 25 20 100
    ["* Lesser Dog appeared!",
     "* Lesser Dog is barking  \n  excitedly.",
     "* Lesser Dog wants to play.",
     "* Smells like dog treats."]
    "ATK 8 DEF 0\\n* Wields a deadly battle axe.\\n  Desperate for affection."
    ["Battle/Enemies/02 - Snowdin/Lesser Dog/spr_lesserdogbattle_0.png"]
    [jact "Check" "check",
     jactm "Pet" "pet" "* You pet Lesser Dog.\\n* It gets more excited!" 25]
    [jpat "Dog Bark" 4000
      [wcso 1000 "bark" 1 (Json.int 4) "vertical"]]),
  ("greater_dog", jrecP "Greater Dog" 105 8 4 40 80 100
    ["* Greater Dog shows up!",
     "* Greater Dog is watching you  \n  intently.",
     "* Greater Dog wants some pets.",
     "* Smells like puppy breath."]
    "ATK 8 DEF 4\\n* A very excitable dog.\\n  Unable to see enemies."
    ["Battle/Enemies/02 - Snowdin/Greater Dog/spr_greatdog_0.png"]
    [jact "Check" "check",
     jactm "Pet" "pet" "* You pet Greater Dog.\\n* It\x27s very happy!" 33]
    [jpat "Dog Attacks" 5000
      [wsc 0 "dog_head" (Json.int 2) "blue_white",
       wst 2500 "annoying_dog" (Json.int 3) "movement"]]),
  ("temmie", jrecP "Temmie" 5 20 (-20) 10 0 100
    ["* hOI! i\x27m tEMMIE!",
     "* Temmie vibrates intensely.",
     "* Temmie is flexing.",
     "* Smells like Temmie Flakes."]
    "ATK 20 DEF -20\\n* The cutest thing ever!\\n  Also forgot enemy name..."
    ["Battle/Enemies/03 - Waterfall/Temmie/spr_temmiebattle_0.png"]
    [jact "Check" "check",
     jactm "Talk" "talk" "* You talk to Temmie.\\n* hOI!" 30,
     jactm "Flex" "flex" "* You flex at Temmie.\\n* Temmie does not approve!" 0]
    [jpat "Temmie Flakes" 4000
      [wcss 0 "projectiles" 6 (Json.int 2) 12 "top",
       wcss 1500 "projectiles" 5 (Json.float 2.5) 12 "left"]]),
  ("mad_dummy", jrecP "Mad Dummy" 200 8 7 0 0 0
    ["* Mad Dummy is blocking the way!",
     "* Mad Dummy is getting more mad.",
     "* Mad Dummy is screaming.",
     "* Smells like cotton and rage."]
    "ATK 8 DEF 7\\n* Too resilient to give up.\\n  A possessed training dummy."
    ["Battle/Enemies/03 - Waterfall/Mad Dummy/spr_maddummy_body.png"]
    [jact "Check" "check",
     jactm "Cheer" "cheer" "* You cheer.\\n* Mad Dummy is confused!" 33]
    [jpat "Dummy Army" 6000
      [wcs 0 "dummy_swarm" 5 (Json.int 2),
       wcs 2000 "rockets" 3 (Json.float 3.5),
       wcs 4000 "knife" 1 (Json.int 4)]]),
  ("royal_guards", jrecP "Royal Guards" 150 9 4 100 140 100
    ["* The Royal Guards appear!",
     "* 01 and 02 are on duty.",
     "* The guards stand proudly.",
     "* Smells like armor polish."]
    "ATK 9 DEF 4\\n* These two brothers work\\n  together as guards."
    ["Battle/Enemies/04 - Hotland/Royal Guards/spr_02battle_0.png"]
    [jact "Check" "check",
     jactm "Clean Armor" "clean" "* You clean their armor.\\n* They appreciate it!" 50]
    [jpat "Guard Combo" 5500
      [wcss 0 "projectiles" 6 (Json.float 2.5) 15 "top",
       wcs 2000 "star_bullets" 5 (Json.int 3),
       wcss 3500 "projectiles" 7 (Json.int 3) 15 "bottom"]]),
  ("so_sorry", jrecP "So Sorry" 1100 9 (-6) 300 1 100
    ["* So Sorry appears!",
     "* So Sorry is drawing something.",
     "* So Sorry is apologizing.",
     "* Smells like art supplies."]
    "ATK 9 DEF -6\\n* This creature is definitely  \\n  \x27art\x27 in motion."
    ["Battle/Enemies/04 - Hotland/So Sorry/spr_sosorry_normal_0.png"]
    [jact "Check" "check",
     jactm "Draw" "draw" "* You draw something nice.\\n* So Sorry is happy!" 100]
    [jpat "Art Attack" 7000
      [wcs 0 "tail_slash" 2 (Json.int 3),
       wcs 2000 "paper_balls" 8 (Json.float 2.5),
       wcs 4500 "doodle_arms" 4 (Json.int 3)]]),
  ("parsnik", jrecP "Parsnik" 50 8 7 5 5 100
    ["* Parsnik shows up!",
     "* Parsnik is posing dramatically.",
     "* Parsnik is being rebellious.",
     "* Smells like parsnips."]
    "ATK 8 DEF 7\\n* Hard Mode only.\\n* A rebellious root vegetable."
    ["Battle/Enemies/01 - Ruins/Parsnik/spr_parsnikbattle_0.png"]
    [jact "Check" "check",
     jactm "Devour" "devour" "* You devour Parsnik." 100]
    [jpat "Root Attack" 4000
      [wcss 0 "projectiles" 5 (Json.float 2.5) 15 "top",
       wcss 2000 "projectiles" 6 (Json.int 3) 15 "bottom"]]),
  ("moldessa", jrecP "Moldessa" 52 8 5 12 6 100
    ["* Moldessa oozes up!",
     "* Moldessa is posing.",
     "* Moldessa wiggles provocatively.",
     "* Smells like a beauty salon."]
    "ATK 8 DEF 5\\n* Hard Mode only.\\n* A slime in its prime."
    ["Battle/Enemies/01 - Ruins/Moldessa/spr_moldbyggbattle_hardmode_0.png"]
    [jact "Check" "check",
     jactm "Impress" "impress" "* You pose. Moldessa is  \\n  impressed!" 100]
    [jpat "Slime Attack" 4500
      [wcss 0 "projectiles" 6 (Json.int 2) 15 "top",
       wcs 2000 "exploding_slime" 3 (Json.float 2.5)]]),
  ("migospel", jrecP "Migospel" 60 8 6 8 7 100
    ["* Migospel buzzed up!",
     "* Migospel is preaching.",
     "* Migospel is looking for  \\n  followers.",
     "* Smells like incense."]
    "ATK 8 DEF 6\\n* Hard Mode only.\\n* A missionary for monsters."
    ["Battle/Enemies/01 - Ruins/Migospel/spr_migospbattle_hardmode_0.png"]
    [jact "Check" "check",
     jactm "Pray" "pray" "* You pray.\\n* Migospel is pleased!" 100]
    [jpat "Gospel Attack" 4500
      [wcss 0 "projectiles" 5 (Json.float 2.5) 15 "top",
       wcss 2000 "projectiles" 6 (Json.int 3) 15 "left"]]),
  ("glyde", jrecP "Glyde" 220 9 5 120 100 100
    ["* Glyde glides in!",
     "* Glyde is selling wares.",
     "* Glyde is looking smug.",
     "* Smells like expensive cologne."]
    "ATK 9 DEF 5\\n* A wealthy art dealer.\\n* Trades in rare artifacts."
    ["Battle/Enemies/02 - Snowdin/Glyde/spr_glydebattle_0.png"]
    [jact "Check" "check",
     jactm "Pay" "pay" "* You pay Glyde.\\n* Glyde is satisfied!" 100]
    [jpat "Glyde Attack" 5000
      [wcss 0 "projectiles" 6 (Json.float 2.5) 15 "top",
       wcss 2000 "projectiles" 7 (Json.int 3) 15 "left",
       wcss 3500 "projectiles" 6 (Json.int 3) 15 "right"]])]

/-- generate_missing_undertale_enemies.py lines 414-422: `create_enemy_json`
builds the relative path, creates its directory, then dumps the record
verbatim. -/
def create_enemy_json (enemy_id : String) (enemy_data : Json) : List FsOp :=
  [FsOp.mkdirAll (dirname ("data/enemies/" ++ enemy_id ++ ".json")),
   FsOp.write ("data/enemies/" ++ enemy_id ++ ".json") enemy_data]

/-- A full run (lines 424-431): per-entry mkdir + write, in table order. -/
def run : List FsOp :=
  (ENEMIES.map fun p => create_enemy_json p.1 p.2).flatten

end GenMissing

namespace DrBosses

/-- generate_deltarune_bosses.py lines 10-195: the bosses list, in source
order.  checkText strings in this file contain literal backslash-n. -/
def bosses : List Json := [
  jdrboss "Jevil" "Ch1" "Jevil/Body" 3500 12 10
    ["* CHAOS, CHAOS!",
     "* I CAN DO ANYTHING!",
     "* Jevil laughs maniacally.",
     "* Smells like chaos."]
    "ATK 12 DEF 10\\n* The Joker Card. Can do anything."
    [jact "Check" "check",
     jactm "Pirouette" "pirouette" "* You pirouette. Jevil is amused!" 10,
     jactm "Hypnosis" "hypnosis" "* You hypnotize Jevil..." 15]
    [jpat "Chaos Carousel" 6000
      [wcsPat 0 "carousel" 8 (Json.int 3) "circular",
       wcsPat 2000 "carousel" 12 (Json.float 3.5) "spiral",
       wcs 4000 "devilsknife" 4 (Json.int 4)]],
  jdrboss "King" "Ch1" "King/Ch1" 4000 13 8
    ["* The King of Spades attacks!",
     "* King laughs wickedly.",
     "* King readies his weapon.",
     "* Smells like tyranny."]
    "ATK 13 DEF 8\\n* The King of the Card Kingdom."
    [jact "Check" "check",
     jactm "Pacify" "pacify" "* You try to calm King down..." 0]
    [jpat "Spade Attack" 5500
      [wcsSide 0 "spades" 8 (Json.int 3) "top",
       wcsSide 1500 "spades" 10 (Json.float 3.5) "all",
       wcsSide 3500 "spades" 15 (Json.int 4) "all"]],
  jdrboss "Spamton NEO" "Ch2" "Spamton NEO/Parts" 5000 14 10
    ["* NOW\x27S YOUR CHANCE TO BE A [Big Shot]!",
     "* SPAMTON NEO attacks!",
     "* You hear ringing phones.",
     "* Smells like hyperlink blocked."]
    "ATK 14 DEF 10\\n* NOW\x27S YOUR CHANCE TO BE A [Big Shot]"
    [jact "Check" "check",
     jactm "[Call]" "call" "* You try to call someone..." 5,
     jactm "[Cut Cable]" "cut" "* You cut a cable." 20]
    [jpat "Pipis Attack" 6000
      [wcs 0 "pipis" 5 (Json.float 2.5),
       wcs 2000 "big_shot" 3 (Json.int 4),
       wcs 4000 "pipis" 8 (Json.int 3)]],
  jdrboss "Queen" "Ch2" "Queen/Portraits" 4500 13 9
    ["* Queen Attacks Lmao",
     "* Queen adjusts her glass.",
     "* Queen is typing.",
     "* Smells like battery acid."]
    "ATK 13 DEF 9\\n* The Queen of the Cyber World."
    [jact "Check" "check",
     jactm "Compliment" "compliment" "* You compliment Queen\x27s management style." 15]
    [jpat "Acid Attack" 5500
      [wcsSide 0 "acid" 6 (Json.int 3) "top",
       wcsSide 2000 "acid" 8 (Json.float 3.5) "all",
       wcsSide 4000 "acid" 10 (Json.int 4) "all"]],
  jdrboss "Tasque Manager" "Ch2" "Tasque Manager/Ch2" 3800 12 8
    ["* Tasque Manager cracks her whip!",
     "* Tasque Manager gives orders.",
     "* Everything is orderly.",
     "* Smells like order."]
    "ATK 12 DEF 8\\n* Manages all the Tasques."
    [jact "Check" "check",
     jactm "Pet" "pet" "* You try to pet Tasque Manager..." 10,
     jactm "Compliment" "compliment" "* You compliment her management." 20]
    [jpat "Tasque Swarm" 5000
      [wcs 0 "tasques" 4 (Json.int 3),
       wcs 1500 "whip" 6 (Json.int 4),
       wcs 3000 "tasques" 6 (Json.float 3.5)]],
  jdrboss "Sweet Cap\x27n Cakes" "Ch2" "Sweet Cap_n Cakes/Sweet" 3600 11 7
    ["* Sweet, Cap\x27n, and K_K attack in harmony!",
     "* They\x27re making music.",
     "* The beat drops.",
     "* Smells like batteries and sugar."]
    "ATK 11 DEF 7\\n* Three musical entrepreneurs."
    [jact "Check" "check",
     jactm "Dance" "dance" "* You dance to the music!" 30,
     jactm "Applaud" "applaud" "* You applaud their performance." 25]
    [jpat "Musical Notes" 5500
      [wcsPat 0 "notes" 8 (Json.int 3) "musical",
       wcsPat 2000 "notes" 12 (Json.float 3.5) "musical",
       wcsPat 4000 "notes" 10 (Json.int 4) "musical"]]]

/-- generate_deltarune_bosses.py lines 197-225: `generate_boss_json` derives
the file name by normalizing the display name, then writes a NEW dict that
drops the chapter/folder keys and adds gold/exp/spareThreshold/sprites
(sprites maps "idle" to a single path STRING).  `none` would model a
KeyError on a malformed record. -/
def generate_boss_json (boss : Json) (output_dir : String) : Option (String × Json) :=
  match boss.lookup "name", boss.lookup "chapter", boss.lookup "folder",
    boss.lookup "hp", boss.lookup "attack", boss.lookup "defense",
    boss.lookup "dialogue", boss.lookup "checkText", boss.lookup "acts",
    boss.lookup "attackPatterns" with
  | some (Json.str name), some (Json.str chapter), some (Json.str folder),
      some hp, some atk, some defense, some dialogue, some checkTxt,
      some acts, some patterns =>
    let name_clean := clean_boss_name name
    let filepath := output_dir ++ "/" ++ name_clean ++ ".json"
    let sprite_base := "Deltarune Sprites/Characters/Bosses/" ++ chapter ++ "/" ++ folder ++ "/"
    some (filepath, Json.obj [
      ("name", Json.str name), ("hp", hp), ("attack", atk), ("defense", defense),
      ("gold", Json.int 0), ("exp", Json.int 0), ("spareThreshold", Json.int 0),
      ("dialogue", dialogue), ("checkText", checkTxt),
      ("sprites", Json.obj [("idle", Json.str (sprite_base ++ "idle_0.png"))]),
      ("acts", acts), ("attackPatterns", patterns)])
  | _, _, _, _, _, _, _, _, _, _ => none

/-- A full run (lines 227-237): os.makedirs of the output directory, then
one write per boss in list order. -/
def run : Option (List FsOp) :=
  (bosses.mapM fun b => generate_boss_json b "data/enemies/deltarune/bosses").map
    fun ws => FsOp.mkdirAll "data/enemies/deltarune/bosses" ::
      ws.map fun w => FsOp.write w.1 w.2

end DrBosses

namespace DrEnemies

/-- generate_deltarune_enemies.py lines 10-65: the ch1_enemies list. -/
def ch1_enemies : List Json := [
  jdrenemy "Rudinn" 200 6 0 "Rudinn + Rudinn Ranger"
    ["* Rudinn blocks the way!", "* Rudinn is posing dramatically.", "* Smells like bubblegum."]
    [jact "Check" "check",
     jactm "Compliment" "compliment" "* You compliment Rudinn." 20],
  jdrenemy "Hathy" 180 5 0 "Hathy + Head Hathy"
    ["* Hathy blocks the way!", "* Hathy adjusts its crown.", "* Smells like royalty."]
    [jact "Check" "check",
     jactm "Bow" "bow" "* You bow to Hathy." 30],
  jdrenemy "Jigsawry" 220 7 1 "Jigsawry"
    ["* Jigsawry attacks!", "* Jigsawry is fitting together.", "* Smells like cardboard."]
    [jact "Check" "check",
     jactm "Compliment" "compliment" "* You compliment Jigsawry\x27s puzzle." 25],
  jdrenemy "Ponman" 240 8 2 "Ponman"
    ["* Ponman trots forward!", "* Ponman neighs proudly.", "* Smells like hay."]
    [jact "Check" "check",
     jactm "Pet" "pet" "* You pet Ponman." 30],
  jdrenemy "Bloxer" 280 9 2 "Bloxer"
    ["* Bloxer blocks your path!", "* Bloxer is training.", "* Smells like a gym."]
    [jact "Check" "check",
     jactm "Spar" "spar" "* You spar with Bloxer." 30],
  jdrenemy "Starwalker" 300 10 3 "Starwalker"
    ["* These birds are pissing me off...", "* I\x27m the original                  Starwalker.", "* Smells like stardust."]
    [jact "Check" "check",
     jactm "Original" "original" "* You acknowledge the original        Starwalker." 50]]

/-- generate_deltarune_enemies.py lines 68-123: the ch2_enemies list. -/
def ch2_enemies : List Json := [
  jdrenemy "Virovirokun" 250 8 1 "Virovirokun"
    ["* Virovirokun is loading...", "* Virovirokun downloaded something.", "* Smells like malware."]
    [jact "Check" "check",
     jactm "Clean" "clean" "* You clean Virovirokun." 30],
  jdrenemy "Ambyu-Lance" 270 9 2 "Ambyu Lance"
    ["* Ambyu-Lance speeds forward!", "* Ambyu-Lance sirens loudly.", "* Smells like antiseptic."]
    [jact "Check" "check",
     jactm "Call" "call" "* You call for help. Ambyu-Lance is pleased." 40],
  jdrenemy "Werewire" 300 10 2 "Werewire"
    ["* Werewire prowls closer!", "* Werewire howls at the moon.", "* Smells like copper."]
    [jact "Check" "check",
     jactm "Pet" "pet" "* You pet Werewire." 30],
  jdrenemy "Tasque" 230 8 1 "Tasque"
    ["* Tasque obeys orders!", "* Tasque meows electronically.", "* Smells like cat food."]
    [jact "Check" "check",
     jactm "Pet" "pet" "* You pet Tasque. It purrs." 35],
  jdrenemy "Maus" 200 7 0 "Maus"
    ["* Maus clicks around!", "* Maus is squeaking.", "* Smells like circuits."]
    [jact "Check" "check",
     jactm "Click" "click" "* You click on Maus." 25],
  jdrenemy "Swatchling" 350 11 3 "Swatchling"
    ["* Swatchling appears!", "* Swatchling adjusts their palette.", "* Smells like paint."]
    [jact "Check" "check",
     jactm "Compliment" "compliment" "* You compliment Swatchling\x27s colors." 40]]

/-- generate_deltarune_enemies.py lines 125-179: `generate_enemy_json`
derives the file name from the display name (no apostrophe handling in this
script), then writes a NEW dict with fixed gold/exp/spareThreshold, an
f-string checkText (literal backslash-n), sprites mapping "idle" to a single
path STRING, and a fixed default attackPatterns list. -/
def generate_enemy_json (enemy : Json) (chapter : String) (output_dir : String) :
    Option (String × Json) :=
  match enemy.lookup "name", enemy.lookup "hp", enemy.lookup "attack",
    enemy.lookup "defense", enemy.lookup "folder", enemy.lookup "dialogue",
    enemy.lookup "acts" with
  | some (Json.str name), some hp, some (Json.int atk), some (Json.int defense),
      some (Json.str folder), some dialogue, some acts =>
    let filepath := output_dir ++ "/" ++ clean_enemy_name name ++ ".json"
    let sprite_base :=
      if chapter = "ch1" then "Deltarune Sprites/Characters/Enemies/Ch1/" ++ folder ++ "/"
      else "Deltarune Sprites/Characters/Enemies/Ch2/" ++ folder ++ "/"
    some (filepath, Json.obj [
      ("name", Json.str name), ("hp", hp), ("attack", Json.int atk),
      ("defense", Json.int defense),
      ("gold", Json.int 10), ("exp", Json.int 15), ("spareThreshold", Json.int 100),
      ("dialogue", dialogue),
      ("checkText", Json.str ("ATK " ++ toString atk ++ " DEF " ++ toString defense ++
        "\\n* A Darkner from " ++ pyUpper chapter ++ ".")),
      ("sprites", Json.obj [("idle", Json.str (sprite_base ++ "idle_0.png"))]),
      ("acts", acts),
      ("attackPatterns", Json.arr [jpat "Default Attack" 4000
        [wcss 0 "projectiles" 5 (Json.float 2.5) 15 "top",
         wcss 1500 "projectiles" 4 (Json.int 3) 15 "left"]])])
  | _, _, _, _, _, _, _ => none

/-- A full run (lines 181-196): os.makedirs of the output directory, then
one write per Ch1 enemy, then one write per Ch2 enemy, in list order. -/
def run : Option (List FsOp) :=
  match ch1_enemies.mapM (fun e => generate_enemy_json e "ch1" "data/enemies/deltarune"),
    ch2_enemies.mapM (fun e => generate_enemy_json e "ch2" "data/enemies/deltarune") with
  | some w1, some w2 =>
    some (FsOp.mkdirAll "data/enemies/deltarune" ::
      (w1 ++ w2).map fun w => FsOp.write w.1 w.2)
  | _, _ => none

end DrEnemies

/-- The record has a non-empty "acts" list whose first entry is named "Check". -/
def firstActIsCheck (r : Json) : Bool :=
  match r.lookup "acts" with
  | some (Json.arr (a :: _)) =>
    match a.lookup "name" with
    | some (Json.str s) => s == "Check"
    | _ => false
  | _ => false

/-- The wave's "time" is an int with 0 ≤ time ≤ dur. -/
def waveTimeOk (dur : Int) (w : Json) : Bool :=
  match w.lookup "time" with
  | some (Json.int t) => decide (0 ≤ t) && decide (t ≤ dur)
  | _ => false

/-- The pattern has an int "duration" and a "waves" array every entry of
which satisfies `waveTimeOk`. -/
def patternOk (p : Json) : Bool :=
  match p.lookup "duration", p.lookup "waves" with
  | some (Json.int d), some (Json.arr ws) => ws.all (waveTimeOk d)
  | _, _ => false

/-- The record has an "attackPatterns" array and every pattern in it
satisfies `patternOk`. -/
def recPatternsOk (r : Json) : Bool :=
  match r.lookup "attackPatterns" with
  | some (Json.arr ps) => ps.all patternOk
  | _ => false

/-- Every act of the record that carries a "mercyIncrease" key carries an
int value in [0, 100]. -/
def actsMercyOk (r : Json) : Bool :=
  match r.lookup "acts" with
  | some (Json.arr acts) => acts.all fun a =>
      match a.lookup "mercyIncrease" with
      | none => true
      | some (Json.int v) => decide (0 ≤ v) && decide (v ≤ 100)
      | some _ => false
  | _ => false

/-- The record's "sprites" value is a dict mapping every key to an array of
strings. -/
def spritesAllStringArrays (r : Json) : Bool :=
  match r.lookup "sprites" with
  | some (Json.obj fields) => fields.all fun kv =>
      match kv.2 with
      | Json.arr xs => xs.all fun x =>
          match x with
          | Json.str _ => true
          | _ => false
      | _ => false
  | _ => false

/-- The record's "sprites" value is exactly a one-key dict mapping "idle" to
a single string. -/
def spritesIdleSingleString (r : Json) : Bool :=
  match r.lookup "sprites" with
  | some (Json.obj [("idle", Json.str _)]) => true
  | _ => false

/-- The names of the record's attack patterns (string names only). -/
def patternNames (r : Json) : Option (List String) :=
  match r.lookup "attackPatterns" with
  | some (Json.arr ps) => some (ps.filterMap fun p => (p.lookup "name").bind Json.asStr)
  | _ => none

/-- Per pattern, the list of int "time" values of its waves. -/
def patternWaveTimes (r : Json) : Option (List (List Int)) :=
  match r.lookup "attackPatterns" with
  | some (Json.arr ps) => some (ps.map fun p =>
      match p.lookup "waves" with
      | some (Json.arr ws) => ws.filterMap fun w => (w.lookup "time").bind Json.asInt
      | _ => [])
  | _ => none

/-- Per pattern, the number of wave entries. -/
def patternWaveCounts (r : Json) : Option (List Nat) :=
  match r.lookup "attackPatterns" with
  | some (Json.arr ps) => some (ps.map fun p =>
      match p.lookup "waves" with
      | some (Json.arr ws) => ws.length
      | _ => 0)
  | _ => none

theorem applyTrace_lastVal (t : List FsOp) (fs : String → Option Json) (p : String) :
    applyTrace t fs p =
      match lastVal t p with
      | some j => some j
      | none => fs p := by
  induction t generalizing fs with
  | nil => rfl
  | cons op rest ih =>
    cases op with
    | mkdirAll d => exact ih fs
    | write q j =>
      show applyTrace rest (applyOp fs (FsOp.write q j)) p = _
      rw [ih]
      cases h : lastVal rest p with
      | some r => simp [lastVal, h]
      | none =>
        simp only [lastVal, h, applyOp]
        by_cases hpq : p = q <;> simp [hpq]

/-- Replaying a trace on its own result changes nothing: every path it
writes ends at its trace-determined content, every other path is untouched. -/
theorem applyTrace_idem (t : List FsOp) (fs : String → Option Json) :
    applyTrace t (applyTrace t fs) = applyTrace t fs := by
  funext p
  rw [applyTrace_lastVal t (applyTrace t fs) p, applyTrace_lastVal t fs p]
  cases h : lastVal t p with
  | some j => rfl
  | none => rfl

theorem lookup_append_self (fields : List (String × Json)) (k : String) (v : Json) :
    ((fields ++ [(k, v)]).lookup k).isSome = true := by
  induction fields with
  | nil => simp [List.lookup]
  | cons a rest ih =>
    rcases a with ⟨k1, v1⟩
    by_cases h : k == k1 <;> simp [List.lookup, h, ih]

/-- Injecting the default attack patterns is idempotent: once the key is
present the guard blocks a second injection. -/
theorem addDefaultPatterns_idem (d : Json) :
    GenEnemies.addDefaultPatterns (GenEnemies.addDefaultPatterns d) =
      GenEnemies.addDefaultPatterns d := by
  cases d with
  | obj fields =>
    by_cases h : (fields.lookup "attackPatterns").isSome = true
    · simp [GenEnemies.addDefaultPatterns, h]
    · simp [GenEnemies.addDefaultPatterns, h, lookup_append_self]
  | str s => rfl
  | int n => rfl
  | float q => rfl
  | arr xs => rfl

theorem normGen_mettaton_eq (sp ap hy : String) :
    normGen sp ap hy "Mettaton EX" =
      String.mk ("mettaton".data ++ (sp.data ++ "ex".data)) := rfl

/-- No rule of the normalization family can send "Mettaton EX" to
"mettaton": the letters e and x survive every such rule, so the result has
length 10 + |replacement of the space|. -/
theorem normGen_mettaton (sp ap hy : String) :
    normGen sp ap hy "Mettaton EX" ≠ "mettaton" := by
  rw [normGen_mettaton_eq]
  intro h
  have h2 : ("mettaton".data ++ (sp.data ++ "ex".data)).length =
      ("mettaton" : String).data.length := congrArg (fun s => s.data.length) h
  have h3 : ("mettaton" : String).data.length = 8 := rfl
  have h4 : ("ex" : String).data.length = 2 := rfl
  rw [List.length_append, List.length_append, h3, h4] at h2
  omega

/-- Claim C1, counterexample: the round-trip identity fails for
generate_deltarune_bosses.py.  Its first table record (Jevil) has the keys
name/chapter/folder/hp/attack/defense/dialogue/checkText/acts/attackPatterns,
but the record written for it drops chapter and folder and adds
gold/exp/spareThreshold/sprites, so the decoded JSON is not value-equal to
the in-memory table record. -/
theorem C1_counterexample :
    (DrBosses.bosses.head?.bind fun b => (b.lookup "name").bind Json.asStr) = some "Jevil" ∧
    DrBosses.bosses.head?.map Json.keys =
      some ["name", "chapter", "folder", "hp", "attack", "defense", "dialogue",
            "checkText", "acts", "attackPatterns"] ∧
    (DrBosses.run.bind fun t => (writesOf t).head?.map fun w => Json.keys w.2) =
      some ["name", "hp", "attack", "defense", "gold", "exp", "spareThreshold",
            "dialogue", "checkText", "sprites", "acts", "attackPatterns"] ∧
    DrBosses.bosses.head?.map Json.keys ≠
      (DrBosses.run.bind fun t => (writesOf t).head?.map fun w => Json.keys w.2) := by
  decide

/-- Claim C1, amended: every script writes exactly one file per table
record, at pairwise-distinct paths, in table order.
generate_bosses_old.py and generate_missing_undertale_enemies.py write each
table record verbatim (round-trip identity holds for them);
generate_enemies.py writes each record after injecting the default
attackPatterns into it; the two Deltarune scripts write a derived record
with the fixed key set name/hp/attack/defense/gold/exp/spareThreshold/
dialogue/checkText/sprites/acts/attackPatterns rather than the table
record. -/
theorem C1_amended :
    ((writesOf GenBossesOld.run).length = GenBossesOld.BOSSES.length ∧
     nodupPaths GenBossesOld.run = true ∧
     (writesOf GenBossesOld.run).map Prod.snd = GenBossesOld.BOSSES.map Prod.snd) ∧
    ((writesOf GenMissing.run).length = GenMissing.ENEMIES.length ∧
     nodupPaths GenMissing.run = true ∧
     (writesOf GenMissing.run).map Prod.snd = GenMissing.ENEMIES.map Prod.snd) ∧
    ((writesOf GenEnemies.run).length = GenEnemies.ENEMIES.length ∧
     nodupPaths GenEnemies.run = true ∧
     (writesOf GenEnemies.run).map Prod.snd =
       GenEnemies.ENEMIES.map fun p => GenEnemies.addDefaultPatterns p.2) ∧
    ((DrBosses.run.map fun t => (writesOf t).length) = some DrBosses.bosses.length ∧
     DrBosses.run.map nodupPaths = some true ∧
     (DrBosses.run.map fun t => (writesOf t).all fun w =>
       Json.keys w.2 == ["name", "hp", "attack", "defense", "gold", "exp",
         "spareThreshold", "dialogue", "checkText", "sprites", "acts",
         "attackPatterns"]) = some true) ∧
    ((DrEnemies.run.map fun t => (writesOf t).length) =
       some (DrEnemies.ch1_enemies.length + DrEnemies.ch2_enemies.length) ∧
     DrEnemies.run.map nodupPaths = some true ∧
     (DrEnemies.run.map fun t => (writesOf t).all fun w =>
       Json.keys w.2 == ["name", "hp", "attack", "defense", "gold", "exp",
         "spareThreshold", "dialogue", "checkText", "sprites", "acts",
         "attackPatterns"]) = some true) :=
  ⟨⟨rfl, by decide, rfl⟩, ⟨rfl, by decide, rfl⟩, ⟨rfl, by decide, rfl⟩,
   ⟨rfl, by decide, by decide⟩, ⟨rfl, by decide, by decide⟩⟩

/-- Claim C2, counterexample: generate_enemies.py performs no directory
creation at all — its run consists of 25 writes and not a single mkdir — so
a run started without the output directory does not create it first. -/
theorem C2_counterexample :
    dirsMadeBefore [] GenEnemies.run = false ∧
    (GenEnemies.run.all fun op => !FsOp.isMkdir op) = true ∧
    (writesOf GenEnemies.run).length = 25 := by
  decide

/-- Claim C2, amended: four of the five scripts create the output directory
(including parents, via os.makedirs(..., exist_ok=True)) before every write;
generate_enemies.py never creates its output directory. -/
theorem C2_amended :
    dirsMadeBefore [] GenBossesOld.run = true ∧
    dirsMadeBefore [] GenMissing.run = true ∧
    DrBosses.run.map (dirsMadeBefore []) = some true ∧
    DrEnemies.run.map (dirsMadeBefore []) = some true ∧
    (GenEnemies.run.all fun op => !FsOp.isMkdir op) = true := by
  decide

/-- Claim C3, confirmed: the Undertale boss generator writes exactly one
toriel file, whose record has hp 440, attack 6, defense 1, and a single
attack pattern named "Fire Magic" with exactly four waves at times
0, 1000, 2000, 3000 in that order. -/
theorem C3_confirmed :
    (pathsOf GenBossesOld.run).count (GenBossesOld.OUTPUT_DIR ++ "/toriel.json") = 1 ∧
    ((findWrite GenBossesOld.run (GenBossesOld.OUTPUT_DIR ++ "/toriel.json")).bind
      fun j => (j.lookup "hp").bind Json.asInt) = some 440 ∧
    ((findWrite GenBossesOld.run (GenBossesOld.OUTPUT_DIR ++ "/toriel.json")).bind
      fun j => (j.lookup "attack").bind Json.asInt) = some 6 ∧
    ((findWrite GenBossesOld.run (GenBossesOld.OUTPUT_DIR ++ "/toriel.json")).bind
      fun j => (j.lookup "defense").bind Json.asInt) = some 1 ∧
    ((findWrite GenBossesOld.run (GenBossesOld.OUTPUT_DIR ++ "/toriel.json")).bind
      patternNames) = some ["Fire Magic"] ∧
    ((findWrite GenBossesOld.run (GenBossesOld.OUTPUT_DIR ++ "/toriel.json")).bind
      patternWaveCounts) = some [4] ∧
    ((findWrite GenBossesOld.run (GenBossesOld.OUTPUT_DIR ++ "/toriel.json")).bind
      patternWaveTimes) = some [[0, 1000, 2000, 3000]] := by
  decide

/-- Claim C4, counterexample: generate_bosses_old.py names files after the
table key, not the display name.  The record written to mettaton.json has
display name "Mettaton EX"; normalizing that name by removing space,
apostrophe and hyphen gives "mettatonex", and replacing them with
underscores gives "mettaton_ex" — neither is the file stem "mettaton", and
no file with either normalized stem is written. -/
theorem C4_counterexample :
    ((findWrite GenBossesOld.run (GenBossesOld.OUTPUT_DIR ++ "/mettaton.json")).bind
      fun j => (j.lookup "name").bind Json.asStr) = some "Mettaton EX" ∧
    normGen "" "" "" "Mettaton EX" = "mettatonex" ∧
    normGen "_" "_" "_" "Mettaton EX" = "mettaton_ex" ∧
    ("mettatonex" : String) ≠ "mettaton" ∧
    ("mettaton_ex" : String) ≠ "mettaton" ∧
    (pathsOf GenBossesOld.run).contains (GenBossesOld.OUTPUT_DIR ++ "/mettatonex.json") = false ∧
    (pathsOf GenBossesOld.run).contains (GenBossesOld.OUTPUT_DIR ++ "/mettaton_ex.json") = false := by
  decide

/-- Claim C4, amended: only the two Deltarune scripts derive file names from
the display name (lowercased, space and hyphen replaced by underscores, and
— in the boss script only — apostrophes removed), as the concrete path lists
show.  The other three scripts name files after the table key, and for
generate_bosses_old.py's mettaton entry (display name "Mettaton EX") NO rule
of the spec's normalization family — lowercase plus any removal/replacement
of spaces, apostrophes and hyphens — can produce the actual file stem
"mettaton". -/
theorem C4_amended :
    DrBosses.run.map pathsOf = some
      ["data/enemies/deltarune/bosses/jevil.json",
       "data/enemies/deltarune/bosses/king.json",
       "data/enemies/deltarune/bosses/spamton_neo.json",
       "data/enemies/deltarune/bosses/queen.json",
       "data/enemies/deltarune/bosses/tasque_manager.json",
       "data/enemies/deltarune/bosses/sweet_capn_cakes.json"] ∧
    DrEnemies.run.map pathsOf = some
      ["data/enemies/deltarune/rudinn.json",
       "data/enemies/deltarune/hathy.json",
       "data/enemies/deltarune/jigsawry.json",
       "data/enemies/deltarune/ponman.json",
       "data/enemies/deltarune/bloxer.json",
       "data/enemies/deltarune/starwalker.json",
       "data/enemies/deltarune/virovirokun.json",
       "data/enemies/deltarune/ambyu_lance.json",
       "data/enemies/deltarune/werewire.json",
       "data/enemies/deltarune/tasque.json",
       "data/enemies/deltarune/maus.json",
       "data/enemies/deltarune/swatchling.json"] ∧
    pathsOf GenBossesOld.run =
      GenBossesOld.BOSSES.map (fun p => GenBossesOld.OUTPUT_DIR ++ "/" ++ p.1 ++ ".json") ∧
    pathsOf GenEnemies.run =
      GenEnemies.ENEMIES.map (fun p => GenEnemies.OUTPUT_DIR ++ "/" ++ p.1 ++ ".json") ∧
    pathsOf GenMissing.run =
      GenMissing.ENEMIES.map (fun p => "data/enemies/" ++ p.1 ++ ".json") ∧
    ∀ sp ap hy : String, normGen sp ap hy "Mettaton EX" ≠ "mettaton" :=
  ⟨by decide, by decide, rfl, rfl, rfl, normGen_mettaton⟩

/-- Claim C5, confirmed: each script's run is a fixed, input-independent
trace (both fallible Deltarune runs succeed), writes land in table order,
and replaying any script's trace on its own result leaves the filesystem
unchanged; generate_enemies.py's in-place table mutation is also idempotent,
so an in-process rerun dumps identical content. -/
theorem C5_confirmed :
    DrBosses.run.isSome = true ∧ DrEnemies.run.isSome = true ∧
    pathsOf GenBossesOld.run =
      GenBossesOld.BOSSES.map (fun p => GenBossesOld.OUTPUT_DIR ++ "/" ++ p.1 ++ ".json") ∧
    pathsOf GenEnemies.run =
      GenEnemies.ENEMIES.map (fun p => GenEnemies.OUTPUT_DIR ++ "/" ++ p.1 ++ ".json") ∧
    pathsOf GenMissing.run =
      GenMissing.ENEMIES.map (fun p => "data/enemies/" ++ p.1 ++ ".json") ∧
    (∀ fs : String → Option Json,
      applyTrace GenBossesOld.run (applyTrace GenBossesOld.run fs) =
        applyTrace GenBossesOld.run fs ∧
      applyTrace GenEnemies.run (applyTrace GenEnemies.run fs) =
        applyTrace GenEnemies.run fs ∧
      applyTrace GenMissing.run (applyTrace GenMissing.run fs) =
        applyTrace GenMissing.run fs ∧
      applyTrace (DrBosses.run.getD []) (applyTrace (DrBosses.run.getD []) fs) =
        applyTrace (DrBosses.run.getD []) fs ∧
      applyTrace (DrEnemies.run.getD []) (applyTrace (DrEnemies.run.getD []) fs) =
        applyTrace (DrEnemies.run.getD []) fs) ∧
    ∀ d : Json, GenEnemies.addDefaultPatterns (GenEnemies.addDefaultPatterns d) =
      GenEnemies.addDefaultPatterns d :=
  ⟨by decide, by decide, rfl, rfl, rfl,
   fun fs => ⟨applyTrace_idem _ fs, applyTrace_idem _ fs, applyTrace_idem _ fs,
     applyTrace_idem _ fs, applyTrace_idem _ fs⟩,
   addDefaultPatterns_idem⟩

/-- Claim C6, confirmed: in all six tables across the five scripts, every
entity record has a non-empty acts list whose first element is the action
named "Check". -/
theorem C6_confirmed :
    (GenEnemies.ENEMIES.all fun p => firstActIsCheck p.2) = true ∧
    (GenMissing.ENEMIES.all fun p => firstActIsCheck p.2) = true ∧
    (GenBossesOld.BOSSES.all fun p => firstActIsCheck p.2) = true ∧
    DrBosses.bosses.all firstActIsCheck = true ∧
    DrEnemies.ch1_enemies.all firstActIsCheck = true ∧
    DrEnemies.ch2_enemies.all firstActIsCheck = true := by
  decide

/-- Claim C7, confirmed: in every record written by any of the five scripts
(default patterns injected by the generators included), every attack
pattern has an int duration and every wave has an int time with
0 ≤ time ≤ duration. -/
theorem C7_confirmed :
    ((writesOf GenBossesOld.run).all fun w => recPatternsOk w.2) = true ∧
    ((writesOf GenEnemies.run).all fun w => recPatternsOk w.2) = true ∧
    ((writesOf GenMissing.run).all fun w => recPatternsOk w.2) = true ∧
    (DrBosses.run.map fun t => (writesOf t).all fun w => recPatternsOk w.2) = some true ∧
    (DrEnemies.run.map fun t => (writesOf t).all fun w => recPatternsOk w.2) = some true := by
  decide

/-- Claim C8, counterexample: in every descriptor written by
generate_deltarune_bosses.py the sprites field maps "idle" to a single
image-path STRING, not to an array — shown concretely for the first write
(Jevil) and for all six writes at once. -/
theorem C8_counterexample :
    (DrBosses.run.bind fun t => (writesOf t).head?.bind fun w =>
      (w.2.lookup "sprites").bind fun s => (s.lookup "idle").bind Json.asStr) =
      some "Deltarune Sprites/Characters/Bosses/Ch1/Jevil/Body/idle_0.png" ∧
    (DrBosses.run.map fun t => (writesOf t).all fun w => spritesAllStringArrays w.2) =
      some false ∧
    (DrBosses.run.map fun t => (writesOf t).any fun w => spritesAllStringArrays w.2) =
      some false := by
  decide

/-- Claim C8, amended: the three Undertale scripts write sprites fields
mapping every animation-state name to an array of image-path strings, but
the two Deltarune scripts write sprites fields mapping the single state
"idle" to one image-path string. -/
theorem C8_amended :
    ((writesOf GenBossesOld.run).all fun w => spritesAllStringArrays w.2) = true ∧
    ((writesOf GenEnemies.run).all fun w => spritesAllStringArrays w.2) = true ∧
    ((writesOf GenMissing.run).all fun w => spritesAllStringArrays w.2) = true ∧
    (DrBosses.run.map fun t => (writesOf t).all fun w => spritesIdleSingleString w.2) =
      some true ∧
    (DrEnemies.run.map fun t => (writesOf t).all fun w => spritesIdleSingleString w.2) =
      some true := by
  decide

/-- Claim C9, counterexample: generate_enemies.py mutates the froggit table
record between construction and serialization — the constructed literal has
no attackPatterns key, but the record serialized to froggit.json carries
one appended at the end. -/
theorem C9_counterexample :
    (GenEnemies.ENEMIES.lookup "froggit").map Json.keys =
      some ["name", "hp", "attack", "defense", "gold", "exp", "spareThreshold",
            "dialogue", "checkText", "sprites", "acts"] ∧
    (findWrite GenEnemies.run (GenEnemies.OUTPUT_DIR ++ "/froggit.json")).map Json.keys =
      some ["name", "hp", "attack", "defense", "gold", "exp", "spareThreshold",
            "dialogue", "checkText", "sprites", "acts", "attackPatterns"] ∧
    (GenEnemies.ENEMIES.lookup "froggit").map Json.keys ≠
      (findWrite GenEnemies.run (GenEnemies.OUTPUT_DIR ++ "/froggit.json")).map Json.keys := by
  decide

/-- Claim C9, amended: generate_bosses_old.py and
generate_missing_undertale_enemies.py serialize each table record unchanged,
but generate_enemies.py appends a default attackPatterns field to every
table record in place before serializing it (every record lacks the key, so
every one gains it). -/
theorem C9_amended :
    (writesOf GenBossesOld.run).map Prod.snd = GenBossesOld.BOSSES.map Prod.snd ∧
    (writesOf GenMissing.run).map Prod.snd = GenMissing.ENEMIES.map Prod.snd ∧
    (writesOf GenEnemies.run).map Prod.snd =
      GenEnemies.ENEMIES.map (fun p => GenEnemies.addDefaultPatterns p.2) ∧
    (GenEnemies.ENEMIES.all fun p =>
      Json.keys (GenEnemies.addDefaultPatterns p.2) == Json.keys p.2 ++ ["attackPatterns"]) =
      true :=
  ⟨rfl, rfl, rfl, by decide⟩

/-- Claim C10, confirmed: in all six tables across the five scripts, every
act record carrying a mercyIncrease key carries an int value between 0 and
100 inclusive. -/
theorem C10_confirmed :
    (GenEnemies.ENEMIES.all fun p => actsMercyOk p.2) = true ∧
    (GenMissing.ENEMIES.all fun p => actsMercyOk p.2) = true ∧
    (GenBossesOld.BOSSES.all fun p => actsMercyOk p.2) = true ∧
    DrBosses.bosses.all actsMercyOk = true ∧
    DrEnemies.ch1_enemies.all actsMercyOk = true ∧
    DrEnemies.ch2_enemies.all actsMercyOk = true := by
  decide
